import Mathlib

/-!
Verification of the resume-builder conversation state machine
(`agents/general_chat_section_routing.py`, `agents/section_nodes.py`,
`agents/resume_builder_state.py`) against its natural-language specification.

The Python code is shallowly embedded: dictionaries become association
lists (insertion order preserved, as in Python), JSON values produced by
`json.loads` become the inductive `JVal`, the oracle (LLM) call is
abstracted as an explicit outcome parameter, and each handler becomes a
pure function from the pre-state (plus the oracle outcome) to the
post-state.
-/

/-- JSON-like values as produced by Python's `json.loads`.
Numbers are modelled as integers (the decision payloads the handlers
consume carry integer scores; floats are outside the model and rejected
by the embedded parser). -/
inductive JVal where
  | jnull
  | jbool (b : Bool)
  | jnum (n : Int)
  | jstr (s : String)
  | jarr (elems : List JVal)
  | jobj (fields : List (String × JVal))

/-- Python truthiness (`bool(v)`) of a JSON value. -/
def jtruthy : JVal → Bool
  | .jnull => false
  | .jbool b => b
  | .jnum n => n ≠ 0
  | .jstr s => s ≠ ""
  | .jarr xs => ¬ xs.isEmpty
  | .jobj kvs => ¬ kvs.isEmpty

/-- Python `dict` lookup (`m.get(k)` / `m[k]`) on an insertion-ordered
association list. -/
def alistGet {α : Type} (m : List (String × α)) (k : String) : Option α :=
  (m.find? (fun p => p.1 = k)).map (·.2)

/-- Python `dict` assignment `m[k] = v`: replace in place if the key is
present, append otherwise (insertion order preserved). -/
def alistSet {α : Type} (m : List (String × α)) (k : String) (v : α) :
    List (String × α) :=
  match m with
  | [] => [(k, v)]
  | (k', v') :: rest =>
      if k' = k then (k, v) :: rest else (k', v') :: alistSet rest k v

/-- Embedding of `parsed.get(k)` on a decision object (the handlers only call `.get`
on values that are dicts). -/
def pyGet (v : JVal) (k : String) : Option JVal :=
  match v with
  | .jobj kvs => alistGet kvs k
  | _ => none

/-- Python `dict.setdefault(k, d)` on a JSON object. -/
def jsetdefault (v : JVal) (k : String) (d : JVal) : JVal :=
  match v with
  | .jobj kvs =>
      match alistGet kvs k with
      | some _ => v
      | none => .jobj (kvs ++ [(k, d)])
  | _ => v

/-- Rendering of a JSON value into message text (used where the Python
code interpolates a decision field into an f-string or a `Message`).
Strings render as themselves; the non-string cases are corners no
handler contract depends on and are rendered canonically. -/
def jvalContent : JVal → String
  | .jstr s => s
  | .jnull => "None"
  | .jbool true => "True"
  | .jbool false => "False"
  | .jnum n => toString n
  | .jarr _ => "<list>"
  | .jobj _ => "<dict>"

/-- Coercion of an analysis-result field into a list of strings.  The
analysis prompt requests JSON arrays of strings; a non-array value is a
corner outside the model and degrades to `[]`. -/
def jvalToStrList : JVal → List String
  | .jarr xs => xs.map jvalContent
  | _ => []

/-- ASCII whitespace stripped by Python's `str.strip()` (the unicode
whitespace Python additionally strips does not occur in the material). -/
def pyWhitespace (c : Char) : Bool :=
  c = ' ' ∨ c = '\t' ∨ c = '\n' ∨ c = '\r' ∨ c = '\x0b' ∨ c = '\x0c'

/-- Python `str.strip()`. -/
def pyStrip (s : String) : String :=
  String.mk (((s.data.dropWhile pyWhitespace).reverse.dropWhile pyWhitespace).reverse)

/-- ASCII lowercase of one character. -/
def pyCharLower (c : Char) : Char :=
  if 'A' ≤ c ∧ c ≤ 'Z' then Char.ofNat (c.toNat + 32) else c

/-- Python `str.lower()` (ASCII; the section names and aliases are all
ASCII). -/
def pyLower (s : String) : String := String.mk (s.data.map pyCharLower)

/-- Scanner for the tail of a match of the decision-extraction regex
`\{[^{}]*(?:\{[^{}]*\}[^{}]*)*\}` once the opening brace has been
consumed.  `nested` records whether the scan is inside a (single-level)
nested brace pair.  The regex admits exactly the spans that run from the
opening brace to the first brace-depth-1 closing brace, containing at
most one level of nesting; a second-level opening brace or the end of
input kills the attempt (no alternative match exists from this start,
because `[^{}]*` cannot consume braces). -/
def spanScan : List Char → Bool → Option (List Char)
  | [], _ => none
  | c :: rest, nested =>
      if c = '}' then
        if nested then (spanScan rest false).map (fun t => c :: t)
        else some [c]
      else if c = '{' then
        if nested then none
        else (spanScan rest true).map (fun t => c :: t)
      else (spanScan rest nested).map (fun t => c :: t)

/-- Leftmost-start search of the decision-extraction regex: try every
position in order; at an opening brace attempt `spanScan`. -/
def findSpanAux : List Char → Option (List Char)
  | [] => none
  | c :: rest =>
      if c = '{' then
        match spanScan rest false with
        | some t => some (c :: t)
        | none => findSpanAux rest
      else findSpanAux rest

/-- Embedding of `re.search(r'\{[^{}]*(?:\{[^{}]*\}[^{}]*)*\}', text)`:
the first JSON-object-shaped (braced, at most one nesting level) span of
the text, or `none`. -/
def findJsonSpan (s : String) : Option String :=
  (findSpanAux s.data).map String.mk

/-- Whitespace skipped between JSON tokens by `json.loads`. -/
def jsonWs (c : Char) : Bool :=
  c = ' ' ∨ c = '\t' ∨ c = '\n' ∨ c = '\r'

/-- Skip inter-token whitespace. -/
def skipWs (cs : List Char) : List Char := cs.dropWhile jsonWs

/-- Hexadecimal digit value, for `\uXXXX` escapes. -/
def hexDigitVal (c : Char) : Option Nat :=
  if '0' ≤ c ∧ c ≤ '9' then some (c.toNat - '0'.toNat)
  else if 'a' ≤ c ∧ c ≤ 'f' then some (c.toNat - 'a'.toNat + 10)
  else if 'A' ≤ c ∧ c ≤ 'F' then some (c.toNat - 'A'.toNat + 10)
  else none

/-- Parse the body of a JSON string after the opening quote, returning
the decoded characters and the rest of the input.  Models `json.loads`
string decoding (surrogate-pair recombination of `\u` escapes is outside
the model). -/
def parseStringBody : List Char → Except String (List Char × List Char)
  | [] => .error "Unterminated string"
  | '"' :: rest => .ok ([], rest)
  | '\\' :: e :: rest =>
      match e with
      | '"' => (parseStringBody rest).map (fun (s, r) => ('"' :: s, r))
      | '\\' => (parseStringBody rest).map (fun (s, r) => ('\\' :: s, r))
      | '/' => (parseStringBody rest).map (fun (s, r) => ('/' :: s, r))
      | 'b' => (parseStringBody rest).map (fun (s, r) => ('\x08' :: s, r))
      | 'f' => (parseStringBody rest).map (fun (s, r) => ('\x0c' :: s, r))
      | 'n' => (parseStringBody rest).map (fun (s, r) => ('\n' :: s, r))
      | 'r' => (parseStringBody rest).map (fun (s, r) => ('\r' :: s, r))
      | 't' => (parseStringBody rest).map (fun (s, r) => ('\t' :: s, r))
      | 'u' =>
          match rest with
          | h1 :: h2 :: h3 :: h4 :: rest' =>
              match hexDigitVal h1, hexDigitVal h2, hexDigitVal h3, hexDigitVal h4 with
              | some d1, some d2, some d3, some d4 =>
                  let code := ((d1 * 16 + d2) * 16 + d3) * 16 + d4
                  if h : code.isValidChar then
                    (parseStringBody rest').map (fun (s, r) => (Char.ofNatAux code h :: s, r))
                  else .error "Invalid unicode escape"
              | _, _, _, _ => .error "Invalid \\uXXXX escape"
          | _ => .error "Invalid \\uXXXX escape"
      | _ => .error "Invalid \\escape"
  | c :: rest =>
      if c.toNat < 0x20 then .error "Invalid control character"
      else (parseStringBody rest).map (fun (s, r) => (c :: s, r))

/-- Digits to a natural number. -/
def digitsToNat (ds : List Char) : Nat :=
  ds.foldl (fun acc c => acc * 10 + (c.toNat - '0'.toNat)) 0

/-- Parse a JSON number.  Models `json.loads` restricted to integers
(fraction/exponent forms are outside the model and rejected). -/
def parseJsonNumber (cs : List Char) : Except String (JVal × List Char) :=
  let (neg, cs1) := match cs with
    | '-' :: rest => (true, rest)
    | _ => (false, cs)
  let ds := cs1.takeWhile Char.isDigit
  let rest := cs1.dropWhile Char.isDigit
  if ds.isEmpty then .error "Expecting value"
  else if ds.length > 1 ∧ ds.headD '0' = '0' then .error "Leading zeros are invalid"
  else
    match rest with
    | '.' :: _ => .error "Non-integer numbers are outside the model"
    | 'e' :: _ => .error "Non-integer numbers are outside the model"
    | 'E' :: _ => .error "Non-integer numbers are outside the model"
    | _ =>
        let n : Int := Int.ofNat (digitsToNat ds)
        .ok (.jnum (if neg then -n else n), rest)

mutual

/-- Fuel-indexed JSON value parser, modelling `json.loads`. -/
def parseJsonVal : Nat → List Char → Except String (JVal × List Char)
  | 0, _ => .error "Input too deeply nested"
  | Nat.succ fuel, cs =>
      match skipWs cs with
      | [] => .error "Expecting value"
      | '"' :: rest => (parseStringBody rest).map (fun (s, r) => (.jstr (String.mk s), r))
      | '{' :: rest => (parseJsonFields fuel rest true).map (fun (kvs, r) => (.jobj kvs, r))
      | '[' :: rest => (parseJsonElems fuel rest true).map (fun (xs, r) => (.jarr xs, r))
      | 't' :: 'r' :: 'u' :: 'e' :: rest => .ok (.jbool true, rest)
      | 'f' :: 'a' :: 'l' :: 's' :: 'e' :: rest => .ok (.jbool false, rest)
      | 'n' :: 'u' :: 'l' :: 'l' :: rest => .ok (.jnull, rest)
      | cs' => parseJsonNumber cs'

/-- Members of a JSON object after the opening brace (or after a comma);
`first` is true before the first member, where `}` ends the object. -/
def parseJsonFields : Nat → List Char → Bool →
    Except String (List (String × JVal) × List Char)
  | 0, _, _ => .error "Input too deeply nested"
  | Nat.succ fuel, cs, first =>
      match skipWs cs with
      | '}' :: rest => if first then .ok ([], rest) else .error "Expecting string key"
      | '"' :: rest =>
          match parseStringBody rest with
          | .error e => .error e
          | .ok (k, r1) =>
              match skipWs r1 with
              | ':' :: r2 =>
                  match parseJsonVal fuel r2 with
                  | .error e => .error e
                  | .ok (v, r3) =>
                      match skipWs r3 with
                      | ',' :: r4 =>
                          (parseJsonFields fuel r4 false).map
                            (fun (kvs, r) => ((String.mk k, v) :: kvs, r))
                      | '}' :: r4 => .ok ([(String.mk k, v)], r4)
                      | _ => .error "Expecting comma delimiter"
              | _ => .error "Expecting colon delimiter"
      | _ => .error "Expecting property name"

/-- Elements of a JSON array after the opening bracket (or a comma). -/
def parseJsonElems : Nat → List Char → Bool →
    Except String (List JVal × List Char)
  | 0, _, _ => .error "Input too deeply nested"
  | Nat.succ fuel, cs, first =>
      match skipWs cs with
      | ']' :: rest => if first then .ok ([], rest) else .error "Expecting value"
      | _ =>
          match parseJsonVal fuel cs with
          | .error e => .error e
          | .ok (v, r1) =>
              match skipWs r1 with
              | ',' :: r2 => (parseJsonElems fuel r2 false).map (fun (xs, r) => (v :: xs, r))
              | ']' :: r2 => .ok ([v], r2)
              | _ => .error "Expecting comma delimiter"

end

/-- Embedding of Python's `json.loads` on the decision material: parse
one JSON value and require only whitespace to remain. -/
def pyJsonLoads (s : String) : Except String JVal :=
  match parseJsonVal (s.length + 1) s.data with
  | .error e => .error e
  | .ok (v, rest) => if (skipWs rest).isEmpty then .ok v else .error "Extra data"

/-- Embedding of `extract_and_validate_json` from
`agents/general_chat_section_routing.py`: reject empty input, search for
a JSON-object-shaped span (degrading to a synthesized answer decision if
none), parse it, require a dict with an `action` key, and coerce any
action outside the general-chat action set to `"answer"`. -/
def extract_and_validate_json (raw_text : String) : Except String JVal :=
  if pyStrip raw_text = "" then .error "Empty response from LLM"
  else
    match findJsonSpan raw_text with
    | none =>
        .ok (.jobj [("action", .jstr "answer"), ("route", .jnull),
                    ("answer", .jstr (pyStrip raw_text))])
    | some json_text =>
        match pyJsonLoads json_text with
        | .error e => .error ("Invalid JSON format: " ++ e)
        | .ok parsed =>
            match parsed with
            | .jobj kvs =>
                match alistGet kvs "action" with
                | none => .error "Missing required 'action' key in JSON response"
                | some av =>
                    match av with
                    | .jstr a =>
                        if a = "answer" ∨ a = "route" then .ok (.jobj kvs)
                        else .ok (.jobj (alistSet kvs "action" (.jstr "answer")))
                    | _ => .ok (.jobj (alistSet kvs "action" (.jstr "answer")))
            | _ => .error "Response is not a JSON object"

/-- Positions `j` in `b` (restricted to `[blo, bhi)`) holding character
`c`, ascending — `difflib`'s `b2j` chains (no junk: the inputs are far
below the autojunk threshold). -/
def matchPositions (b : List Char) (c : Char) (blo bhi : Nat) : List Nat :=
  (List.range b.length).filter (fun j => blo ≤ j ∧ j < bhi ∧ b.getD j ' ' = c ∧ j < b.length)

/-- Lookup in the `j2len` map with default 0. -/
def j2lenGet (m : List (Nat × Nat)) (k : Nat) : Nat :=
  (((m.find? (fun p => p.1 = k)).map (·.2)).getD 0)

/-- Inner loop of `difflib.SequenceMatcher.find_longest_match`: for a
fixed `i`, walk the positions of `a[i]` in `b` ascending, extend runs
recorded in `j2len`, and improve the best block on strict increase. -/
def flmInner (i : Nat) (js : List Nat) (j2len : List (Nat × Nat))
    (newj2len : List (Nat × Nat)) (best : Nat × Nat × Nat) :
    List (Nat × Nat) × (Nat × Nat × Nat) :=
  match js with
  | [] => (newj2len, best)
  | j :: rest =>
      let k := (if j = 0 then 0 else j2lenGet j2len (j - 1)) + 1
      let newj2len' := (j, k) :: newj2len
      let best' := if k > best.2.2 then (i + 1 - k, j + 1 - k, k) else best
      flmInner i rest j2len newj2len' best'

/-- Embedding of `difflib.SequenceMatcher.find_longest_match(alo, ahi, blo, bhi)`
(no junk, so the junk-extension steps are no-ops): the earliest longest
matching block `(i, j, size)`. -/
def findLongestMatch (a b : List Char) (alo ahi blo bhi : Nat) : Nat × Nat × Nat :=
  let step := fun (acc : List (Nat × Nat) × (Nat × Nat × Nat)) (i : Nat) =>
    let js := matchPositions b (a.getD i ' ') blo bhi
    flmInner i js acc.1 [] acc.2
  ((List.range' alo (ahi - alo)).foldl step ([], (alo, blo, 0))).2

/-- Total size of all matching blocks, as collected by
`difflib.SequenceMatcher.get_matching_blocks`: recursively take the
longest matching block and recurse on the pieces to its left and right
(block merging does not change the total).  Fuel bounds the recursion
depth; `(a.length + b.length + 1)` always suffices since every split
removes a nonempty block. -/
def matchesTotal (a b : List Char) : Nat → Nat × Nat → Nat × Nat → Nat
  | 0, _, _ => 0
  | Nat.succ fuel, (alo, ahi), (blo, bhi) =>
      let (i, j, k) := findLongestMatch a b alo ahi blo bhi
      if k = 0 then 0
      else
        matchesTotal a b fuel (alo, i) (blo, j) + k +
          matchesTotal a b fuel (i + k, ahi) (j + k, bhi)

/-- The value `difflib.SequenceMatcher(None, x, y).ratio()` represented exactly as
the pair `(2 * matches, len(x) + len(y))`; when both strings are empty
the ratio is 1, represented as `(1, 1)`. -/
def ratioRep (x y : String) : Nat × Nat :=
  let a := x.data
  let b := y.data
  let t := a.length + b.length
  if t = 0 then (1, 1)
  else (2 * matchesTotal a b (t + 1) (0, a.length) (0, b.length), t)

/-- The fuzzy-matching loop of `normalize_section_name`: keep the
candidate of strictly greatest similarity among those strictly above
0.6.  `bestNum/bestDen` is the similarity of `best` (initially 0).
Comparisons are exact rational comparisons; Python compares the same
quantities as floats, which agrees on these magnitudes. -/
def fuzzyBest (clean : String) : List String → Option String → Nat → Nat → Option String
  | [], best, _, _ => best
  | section' :: rest, best, bestNum, bestDen =>
      let nd := ratioRep clean section'
      if nd.1 * bestDen > bestNum * nd.2 ∧ nd.1 * 5 > 3 * nd.2 then
        fuzzyBest clean rest (some section') nd.1 nd.2
      else
        fuzzyBest clean rest best bestNum bestDen

/-- The static alias table of `normalize_section_name`. -/
def section_aliases : List (String × String) :=
  [("skill", "skills"),
   ("experience", "experiences"),
   ("exp", "experiences"),
   ("work", "experiences"),
   ("edu", "education"),
   ("school", "education"),
   ("project", "projects"),
   ("cert", "certificates"),
   ("certification", "certificates"),
   ("certs", "certificates"),
   ("pub", "publications"),
   ("publication", "publications"),
   ("papers", "publications"),
   ("lang", "languages"),
   ("language", "languages"),
   ("rec", "recommendations"),
   ("recommendation", "recommendations"),
   ("refs", "recommendations"),
   ("references", "recommendations"),
   ("contact", "contact"),
   ("contacts", "contact"),
   ("summary", "summary"),
   ("about", "summary"),
   ("custom", "custom"),
   ("other", "custom"),
   ("additional", "custom")]

/-- Embedding of `normalize_section_name` from
`agents/general_chat_section_routing.py`: empty input or empty candidate
list give `none`; then exact membership of the lowercased, stripped
input; then the alias table (only when the canonical name is an
available section); then the similarity fallback with strict threshold
0.6 and first-seen maximum. -/
def normalize_section_name (section_name : String) (available_sections : List String) :
    Option String :=
  if section_name = "" ∨ available_sections = [] then none
  else
    let clean_input := pyStrip (pyLower section_name)
    if available_sections.contains clean_input then some clean_input
    else
      let viaAlias : Option String :=
        match alistGet section_aliases clean_input with
        | some canonical =>
            if available_sections.contains canonical then some canonical else none
        | none => none
      match viaAlias with
      | some canonical => some canonical
      | none => fuzzyBest clean_input available_sections none 0 1

/-- Insert into a ≤-sorted list of strings (code-point lexicographic,
matching Python string comparison). -/
def insertSorted (x : String) : List String → List String
  | [] => [x]
  | y :: ys => if x ≤ y then x :: y :: ys else y :: insertSorted x ys

/-- Python `sorted` on a list of strings. -/
def pySorted (l : List String) : List String := l.foldr insertSorted []

/-- Embedding of `', '.join(sorted(sections))` as used in the clarification
messages. -/
def sortedSectionList (l : List String) : String :=
  String.intercalate ", " (pySorted l)

/-- A conversation message.  The Python `Message` also carries a fresh
uuid and a timestamp; neither is ever read by the handlers, so the model
keeps role and content only. -/
structure Message where
  role : String
  content : String
deriving Repr, DecidableEq

/-- Embedding of `state.make_message(role, content)`. -/
def make_message (role content : String) : Message := ⟨role, content⟩

/-- Per-section metadata dictionary, restricted to the three keys the
handlers read and write (`alignment_score`, `missing_requirements`,
`recommended_questions`).  The alignment score is kept as a raw JSON
value since it is only ever interpolated into messages; the two lists
are modelled as lists of strings (the shape the analysis prompt requests
and every consumer assumes). -/
structure SectionMeta where
  alignment_score : JVal := .jnull
  missing_requirements : List String := []
  recommended_questions : List String := []

/-- Embedding of `ResumeBuilderState` (`agents/resume_builder_state.py`),
restricted to the fields the four handlers read or write.  Python dicts
become insertion-ordered association lists; section content is modelled
as a string (the applier only ever writes strings).  `section_done`,
`context_summary` and `execution_meta` are never touched by the handlers
and are omitted. -/
structure ResumeBuilderState where
  jd_summary : Option String := none
  resume_sections : List (String × String) := []
  section_objects : List (String × SectionMeta) := []
  current_section : Option String := none
  context : List Message := []
  recommended_answers : List (String × List String) := []
  routing_attempts : Nat := 0
  next_action : Option String := none
  proposed_section_content : Option String := none

/-- The constant `MAX_ROUTING_ATTEMPTS` from `agents/general_chat_section_routing.py`. -/
def MAX_ROUTING_ATTEMPTS : Nat := 3

/-- Embedding of `safe_initialize_answers` from
`agents/general_chat_section_routing.py`: create the answer list sized
to the question list when absent; on a length mismatch rebuild to the
new length, copying values at matching indices and padding new slots
with the empty string. -/
def safe_initialize_answers (state : ResumeBuilderState) (section_name : String)
    (questions : List String) : ResumeBuilderState :=
  match alistGet state.recommended_answers section_name with
  | none =>
      { state with
        recommended_answers :=
          alistSet state.recommended_answers section_name
            (List.replicate questions.length "") }
  | some current_answers =>
      if current_answers.length ≠ questions.length then
        let new_answers :=
          (List.range questions.length).map
            (fun i => if i < current_answers.length then current_answers.getD i "" else "")
        { state with
          recommended_answers :=
            alistSet state.recommended_answers section_name new_answers }
      else state

/-- The `updated_answers` loop of `section_chat_node`
(`agents/section_nodes.py`, lines 110–112): for each index below the
current ledger length whose update is truthy with a truthy strip, write
the stripped value.  A truthy non-string update raises `AttributeError`
on `.strip()`; the `.error` result carries the partially updated ledger
that the surrounding `except` branch observes. -/
def apply_updated_answers (answers : List String) : List JVal → Nat →
    Except (List String) (List String)
  | [], _ => .ok answers
  | u :: rest, i =>
      if i < answers.length then
        match u with
        | .jstr s =>
            let answers' := if s ≠ "" ∧ pyStrip s ≠ "" then answers.set i (pyStrip s) else answers
            apply_updated_answers answers' rest (i + 1)
        | v =>
            if jtruthy v then .error answers
            else apply_updated_answers answers rest (i + 1)
      else apply_updated_answers answers rest (i + 1)

/-- The fixed decision returned by `call_llm_json_decision` in offline
mode (no `GOOGLE_API_KEY`). -/
def offlineDecision : JVal :=
  .jobj [("action", .jstr "answer"), ("route", .jnull),
         ("answer", .jstr "(Offline) I received your query and will help once an API key is configured.")]

/-- The decision `call_llm_json_decision` degrades to when the LLM call
or the extraction raises. -/
def errorFallbackDecision : JVal :=
  .jobj [("action", .jstr "answer"), ("route", .jnull),
         ("answer", .jstr "I encountered an error processing your request. Please try again.")]

/-- Embedding of `call_llm_json_decision`: in offline mode return the
fixed canned decision without consulting the oracle; online, extract and
validate the oracle's raw text, degrading to the fixed fallback decision
on any fault (`oracle = .error` models a connectivity/auth failure of
the inference call; the `system_prompt` and `user_payload` arguments
only shape the request). -/
def call_llm_json_decision (offline : Bool) (_system_prompt : String)
    (_user_payload : JVal) (oracle : Except Unit String) : JVal :=
  if offline then offlineDecision
  else
    match oracle with
    | .error _ => errorFallbackDecision
    | .ok raw =>
        match extract_and_validate_json raw with
        | .ok d => d
        | .error _ => errorFallbackDecision

/-- The way an awaited decision call can fail inside
`general_chat_and_section_routing`'s `try` block, matching its two
`except` arms. -/
inductive GcFault where
  | valueError
  | otherError
deriving Repr, DecidableEq

/-- Embedding of `general_chat_and_section_routing`
(`agents/general_chat_section_routing.py`).  `dec` is the outcome of
`await call_llm_json_decision(...)`: `.ok` the returned decision dict,
`.error` the (defensively handled) case where the awaited call itself
raises.  The system prompt and payload construction only shape the
oracle request and are not part of the state transition. -/
def general_chat_and_section_routing (state : ResumeBuilderState)
    (dec : Except GcFault JVal) : ResumeBuilderState :=
  if state.routing_attempts ≥ MAX_ROUTING_ATTEMPTS then
    { state with
      current_section := none,
      routing_attempts := 0,
      next_action := none,
      context := state.context ++
        [make_message "assistant" "Let's start fresh - how can I help you with your resume?"] }
  else
    let state1 := { state with routing_attempts := state.routing_attempts + 1 }
    let state2 :=
      if state1.current_section.isSome then
        { state1 with current_section := none, next_action := none }
      else state1
    match dec with
    | .error .valueError =>
        { state2 with
          context := state2.context ++
            [make_message "assistant" "Could you please rephrase your request?"],
          next_action := none }
    | .error .otherError =>
        { state2 with
          context := state2.context ++
            [make_message "assistant" "How can I help you with your resume?"],
          next_action := none }
    | .ok parsed =>
        let state3 := { state2 with routing_attempts := 0 }
        let action := pyGet parsed "action"
        let routeVal := (pyGet parsed "route").getD .jnull
        let answerVal := (pyGet parsed "answer").getD (.jstr "")
        let isRoute : Bool :=
          match action with
          | some (.jstr a) => a = "route"
          | _ => false
        if isRoute ∧ jtruthy routeVal then
          match routeVal with
          | .jstr route_to =>
              let available_sections := state3.section_objects.map (·.1)
              match normalize_section_name route_to available_sections with
              | some normalized_section =>
                  { state3 with
                    current_section := some normalized_section,
                    next_action := some "section_chat" }
              | none =>
                  { state3 with
                    context := state3.context ++
                      [make_message "assistant"
                        ("I couldn't find section '" ++ route_to ++ "'. Available: " ++
                          sortedSectionList available_sections ++
                          ". Which would you like to work on?")],
                    next_action := none }
          | _ =>
              -- a truthy non-string route reaches `route_to.lower()` inside
              -- `normalize_section_name` and raises; the generic handler catches it
              { state3 with
                context := state3.context ++
                  [make_message "assistant" "How can I help you with your resume?"],
                next_action := none }
        else
          { state3 with
            next_action := none,
            context := state3.context ++
              [make_message "assistant"
                (if jtruthy answerVal then jvalContent answerVal
                 else "How can I help you with your resume today?")] }

/-- The `except` arm of `section_chat_node`'s `try` block: append the
generic help message for the current section and stay in section chat. -/
def sectionChatExcept (cur : String) (s : ResumeBuilderState) : ResumeBuilderState :=
  { s with
    context := s.context ++
      [make_message "assistant"
        ("I'm here to help with your " ++ cur ++ " section. What would you like to know?")],
    next_action := some "section_chat" }

/-- The routing dispatch of `section_chat_node`, acting on the state
`state2` left after the ledger reconcile and the `updated_answers`
application. -/
def section_chat_dispatch (state2 : ResumeBuilderState) (cur : String)
    (available_sections : List String) (parsed : JVal) : ResumeBuilderState :=
  let action := (pyGet parsed "action").getD (.jstr "stay")
  let targetVal := (pyGet parsed "target_section").getD .jnull
  let answerVal := (pyGet parsed "answer").getD (.jstr "")
  let isAct : String → Bool := fun s =>
    match action with
    | .jstr a => a = s
    | _ => false
  if isAct "switch_section" ∧ jtruthy targetVal then
    match targetVal with
    | .jstr target_section =>
        match normalize_section_name target_section available_sections with
        | some normalized_section =>
            if normalized_section ≠ cur then
              { state2 with
                current_section := some normalized_section,
                next_action := some "section_chat",
                context := state2.context ++
                  (if jtruthy answerVal
                   then [make_message "assistant" (jvalContent answerVal)]
                   else []) }
            else
              { state2 with
                next_action := some "section_chat",
                context := state2.context ++
                  [make_message "assistant"
                    (if jtruthy answerVal then jvalContent answerVal
                     else "You're already in the " ++ cur ++
                       " section. How can I help you improve it?")] }
        | none =>
            { state2 with
              next_action := some "section_chat",
              context := state2.context ++
                [make_message "assistant"
                  ("I couldn't find section '" ++ target_section ++
                    "'. Available: " ++ sortedSectionList available_sections ++
                    ". Staying in " ++ cur ++ ".")] }
    | _ =>
        -- a truthy non-string target reaches `.lower()` inside
        -- `normalize_section_name` and raises; the `except` arm catches it
        sectionChatExcept cur state2
  else if isAct "exit_section" then
    { state2 with
      current_section := none,
      next_action := some "exit_to_general",
      context := state2.context ++
        [make_message "assistant"
          (if jtruthy answerVal then jvalContent answerVal
           else "Returning to general chat. How can I help with your resume?")] }
  else if isAct "trigger_updater" then
    { state2 with
      next_action := some "section_updater",
      context := state2.context ++
        (if jtruthy answerVal
         then [make_message "assistant" (jvalContent answerVal)] else []) }
  else if isAct "trigger_applier" then
    { state2 with
      next_action := some "section_applier",
      context := state2.context ++
        (if jtruthy answerVal
         then [make_message "assistant" (jvalContent answerVal)] else []) }
  else
    { state2 with
      next_action := none,
      context := state2.context ++
        (if jtruthy answerVal
         then [make_message "assistant" (jvalContent answerVal)] else []) }

/-- Embedding of `section_chat_node` (`agents/section_nodes.py`).
`dec` is the outcome of `await call_llm_json_decision(...)` inside the
node's `try` block (`.error` = the awaited call raised; the node's
single `except` arm handles every fault).  The system prompt, payload
and all-answered predicate only shape the oracle request. -/
def section_chat_node (state : ResumeBuilderState) (dec : Except Unit JVal) :
    ResumeBuilderState :=
  match state.current_section with
  | none =>
      { state with
        context := state.context ++
          [make_message "assistant" "Please select a section to work on."],
        next_action := some "exit_to_general" }
  | some cur =>
      let section_data := (alistGet state.section_objects cur).getD {}
      let recommended_questions := section_data.recommended_questions
      let available_sections := state.section_objects.map (·.1)
      let state1 := safe_initialize_answers state cur recommended_questions
      let current_answers := (alistGet state1.recommended_answers cur).getD []
      match dec with
      | .error _ => sectionChatExcept cur state1
      | .ok parsed =>
          let updRes : Except ResumeBuilderState ResumeBuilderState :=
            match pyGet parsed "updated_answers" with
            | some (.jarr updated_answers) =>
                match apply_updated_answers current_answers updated_answers 0 with
                | .ok newAns =>
                    .ok { state1 with
                          recommended_answers :=
                            alistSet state1.recommended_answers cur newAns }
                | .error partialAns =>
                    .error { state1 with
                             recommended_answers :=
                               alistSet state1.recommended_answers cur partialAns }
            | _ => .ok state1
          match updRes with
          | .error s => sectionChatExcept cur s
          | .ok state2 => section_chat_dispatch state2 cur available_sections parsed

/-- Embedding of `section_updater_node` (`agents/section_nodes.py`).
`dec` is the outcome of the awaited decision call inside its `try`
block.  A truthy `updated_content` is staged in
`proposed_section_content` (rendered to a string; a non-string value is
stored unvalidated by Python and is a corner outside the claims). -/
def section_updater_node (state : ResumeBuilderState) (dec : Except Unit JVal) :
    ResumeBuilderState :=
  match state.current_section with
  | none => { state with next_action := some "exit_to_general" }
  | some cur =>
      match dec with
      | .error _ =>
          { state with
            context := state.context ++
              [make_message "assistant"
                ("Trouble updating " ++ cur ++ " content. Let's continue working on it.")],
            next_action := some "section_chat" }
      | .ok parsed =>
          let updated_content := (pyGet parsed "updated_content").getD (.jstr "")
          let summary := (pyGet parsed "summary").getD (.jstr "Content updated")
          if jtruthy updated_content then
            { state with
              proposed_section_content := some (jvalContent updated_content),
              context := state.context ++
                [make_message "assistant"
                  (jvalContent summary ++ "\n\n**Updated " ++ cur ++ ":**\n\n" ++
                    jvalContent updated_content ++
                    "\n\nApply these changes? (say 'yes' or 'apply')")],
              next_action := some "section_chat" }
          else
            { state with
              context := state.context ++
                [make_message "assistant"
                  ("Having trouble updating " ++ cur ++ ". Let's continue.")],
              next_action := some "section_chat" }

/-- Outcome of the re-analysis performed by
`apply_section_changes_internal`: the deterministic offline result, the
raw text of an online oracle reply, or a fault raised by the awaited
call. -/
inductive AnalysisOutcome where
  | offline
  | onlineRaw (raw : String)
  | fault
deriving Repr, DecidableEq

/-- The fixed analysis result used in offline mode. -/
def offlineAnalysis (section_name : String) : JVal :=
  .jobj [("alignment_score", .jnum 75),
         ("missing_requirements", .jarr [.jstr "More examples needed"]),
         ("recommended_questions", .jarr [.jstr ("Add more examples to " ++ section_name ++ "?")]),
         ("analysis_summary", .jstr "Offline mode")]

/-- The analysis dict extracted from an online oracle reply: regex span
search plus `json.loads` under a bare `except` (any failure leaves the
empty dict), then the four `setdefault` defaults. -/
def onlineAnalysisResult (raw : String) : JVal :=
  let base : JVal :=
    match findJsonSpan raw with
    | none => .jobj []
    | some span =>
        match pyJsonLoads span with
        | .ok v =>
            match v with
            | .jobj kvs => .jobj kvs
            | _ => .jobj []
        | .error _ => .jobj []
  jsetdefault (jsetdefault (jsetdefault (jsetdefault base
    "alignment_score" (.jnum 70))
    "missing_requirements" (.jarr []))
    "recommended_questions" (.jarr []))
    "analysis_summary" (.jstr "Updated successfully")

/-- The analysis dict `apply_section_changes_internal` works from, for
the two non-faulting outcomes. -/
def analysisResultOf (ao : AnalysisOutcome) (section_name : String) : JVal :=
  match ao with
  | .offline => offlineAnalysis section_name
  | .onlineRaw raw => onlineAnalysisResult raw
  | .fault => .jobj []

/-- Embedding of `apply_section_changes_internal`
(`agents/section_nodes.py`): commit the content into
`resume_sections[section_name]` first; then, unless the re-analysis
call faults, overwrite the section's metadata with the (defaulted)
analysis values, reset the answer ledger to empty strings sized to the
new question list, and append a confirmation; on a fault only a
"saved but analysis failed" message is appended — the commit stands. -/
def apply_section_changes_internal (state : ResumeBuilderState)
    (section_name : String) (updated_content : String)
    (ao : AnalysisOutcome) : ResumeBuilderState :=
  let state0 :=
    { state with
      resume_sections := alistSet state.resume_sections section_name updated_content }
  match ao with
  | .fault =>
      { state0 with
        context := state0.context ++
          [make_message "assistant"
            ("✅ Changes saved to " ++ section_name ++
              ", but analysis failed. Continue working on this section.")] }
  | _ =>
      let analysis_result := analysisResultOf ao section_name
      let score := (pyGet analysis_result "alignment_score").getD .jnull
      let missing := jvalToStrList ((pyGet analysis_result "missing_requirements").getD (.jarr []))
      let questions := jvalToStrList ((pyGet analysis_result "recommended_questions").getD (.jarr []))
      let summary := (pyGet analysis_result "analysis_summary").getD (.jstr "")
      let newMeta : SectionMeta :=
        { alignment_score := score,
          missing_requirements := missing,
          recommended_questions := questions }
      let state1 :=
        { state0 with
          section_objects := alistSet state0.section_objects section_name newMeta }
      let new_answers := if questions ≠ [] then List.replicate questions.length "" else []
      let state2 :=
        { state1 with
          recommended_answers := alistSet state1.recommended_answers section_name new_answers }
      let confirmation_msg :=
        "✅ Applied changes to " ++ section_name ++ "!\n\n" ++
        "New alignment: " ++ jvalContent score ++ "%\n" ++
        jvalContent summary ++ "\n\n" ++
        (if questions ≠ [] then
          "Continue with " ++ toString questions.length ++ " more questions?"
         else "Section complete! Switch to another section or continue refining.")
      { state2 with
        context := state2.context ++ [make_message "assistant" confirmation_msg] }

/-- The content `section_applier_node` selects to apply: the staged
proposal if truthy, else the stored section content, else empty
(empty = "nothing to apply"). -/
def contentToApply (state : ResumeBuilderState) (cur : String) : String :=
  let proposed := state.proposed_section_content.getD ""
  if proposed ≠ "" then proposed
  else (alistGet state.resume_sections cur).getD ""

/-- Embedding of `section_applier_node` (`agents/section_nodes.py`):
guard on an active section and on having content, commit and re-analyze
via `apply_section_changes_internal`, clear the staged proposal
(`delattr`), and return to section chat. -/
def section_applier_node (state : ResumeBuilderState) (ao : AnalysisOutcome) :
    ResumeBuilderState :=
  match state.current_section with
  | none => { state with next_action := some "exit_to_general" }
  | some cur =>
      let content_to_apply := contentToApply state cur
      if content_to_apply = "" then
        { state with
          context := state.context ++
            [make_message "assistant"
              ("No content to apply for " ++ cur ++ ". Please try again.")],
          next_action := some "section_chat" }
      else
        let state1 := apply_section_changes_internal state cur content_to_apply ao
        let state2 := { state1 with proposed_section_content := none }
        { state2 with next_action := some "section_chat" }

theorem alistGet_alistSet_same {α : Type} (m : List (String × α)) (k : String) (v : α) :
    alistGet (alistSet m k v) k = some v := by
  induction m with
  | nil => simp [alistGet, alistSet, List.find?]
  | cons p rest ih =>
      obtain ⟨k', v'⟩ := p
      by_cases h : k' = k
      · simp [alistSet, h, alistGet, List.find?]
      · simpa [alistSet, h, alistGet, List.find?] using ih

theorem alistGet_alistSet_other {α : Type} (m : List (String × α)) (k k' : String) (v : α)
    (h : k' ≠ k) : alistGet (alistSet m k v) k' = alistGet m k' := by
  have h' : ¬ (k = k') := fun hh => h hh.symm
  induction m with
  | nil => simp [alistGet, alistSet, List.find?, h']
  | cons p rest ih =>
      obtain ⟨k0, v0⟩ := p
      by_cases h0 : k0 = k
      · subst h0
        simp [alistSet, alistGet, List.find?, h']
      · by_cases h1 : k0 = k'
        · simp [alistSet, if_neg h0, alistGet, List.find?, h1, h]
        · simp only [alistSet, if_neg h0]
          simpa [alistGet, List.find?, h1] using ih

theorem apply_updated_answers_ok_length (updates : List JVal) :
    ∀ (answers l : List String) (i : Nat),
      apply_updated_answers answers updates i = .ok l → l.length = answers.length := by
  induction updates with
  | nil =>
      intro answers l i h
      simp [apply_updated_answers] at h
      simp [h]
  | cons u rest ih =>
      intro answers l i h
      by_cases hlt : i < answers.length
      · cases u with
        | jstr s =>
            simp only [apply_updated_answers, if_pos hlt] at h
            by_cases hc : s ≠ "" ∧ pyStrip s ≠ ""
            · rw [if_pos hc] at h
              have := ih _ _ _ h
              simpa using this
            · rw [if_neg hc] at h
              exact ih _ _ _ h
        | jnull =>
            simp only [apply_updated_answers, if_pos hlt, jtruthy] at h
            exact ih _ _ _ h
        | jbool b =>
            cases b with
            | false =>
                simp only [apply_updated_answers, if_pos hlt, jtruthy] at h
                exact ih _ _ _ h
            | true => simp [apply_updated_answers, if_pos hlt, jtruthy] at h
        | jnum n =>
            by_cases hn : n = 0
            · simp only [apply_updated_answers, if_pos hlt, jtruthy, hn] at h
              simp at h
              exact ih _ _ _ h
            · simp [apply_updated_answers, if_pos hlt, jtruthy, hn] at h
        | jarr xs =>
            cases xs with
            | nil =>
                simp only [apply_updated_answers, if_pos hlt, jtruthy] at h
                simp at h
                exact ih _ _ _ h
            | cons x xs' => simp [apply_updated_answers, if_pos hlt, jtruthy] at h
        | jobj kvs =>
            cases kvs with
            | nil =>
                simp only [apply_updated_answers, if_pos hlt, jtruthy] at h
                simp at h
                exact ih _ _ _ h
            | cons x xs' => simp [apply_updated_answers, if_pos hlt, jtruthy] at h
      · simp only [apply_updated_answers, if_neg hlt] at h
        exact ih _ _ _ h

theorem apply_updated_answers_error_length (updates : List JVal) :
    ∀ (answers l : List String) (i : Nat),
      apply_updated_answers answers updates i = .error l → l.length = answers.length := by
  induction updates with
  | nil => intro answers l i h; simp [apply_updated_answers] at h
  | cons u rest ih =>
      intro answers l i h
      by_cases hlt : i < answers.length
      · cases u with
        | jstr s =>
            simp only [apply_updated_answers, if_pos hlt] at h
            by_cases hc : s ≠ "" ∧ pyStrip s ≠ ""
            · rw [if_pos hc] at h
              have := ih _ _ _ h
              simpa using this
            · rw [if_neg hc] at h
              exact ih _ _ _ h
        | jnull =>
            simp only [apply_updated_answers, if_pos hlt, jtruthy] at h
            exact ih _ _ _ h
        | jbool b =>
            cases b with
            | false =>
                simp only [apply_updated_answers, if_pos hlt, jtruthy] at h
                exact ih _ _ _ h
            | true =>
                simp only [apply_updated_answers, if_pos hlt, jtruthy] at h
                simp at h
                simp [← h]
        | jnum n =>
            by_cases hn : n = 0
            · simp only [apply_updated_answers, if_pos hlt, jtruthy, hn] at h
              simp at h
              exact ih _ _ _ h
            · simp only [apply_updated_answers, if_pos hlt, jtruthy, hn] at h
              simp [hn] at h
              simp [← h]
        | jarr xs =>
            cases xs with
            | nil =>
                simp only [apply_updated_answers, if_pos hlt, jtruthy] at h
                simp at h
                exact ih _ _ _ h
            | cons x xs' =>
                simp only [apply_updated_answers, if_pos hlt, jtruthy] at h
                simp at h
                simp [← h]
        | jobj kvs =>
            cases kvs with
            | nil =>
                simp only [apply_updated_answers, if_pos hlt, jtruthy] at h
                simp at h
                exact ih _ _ _ h
            | cons x xs' =>
                simp only [apply_updated_answers, if_pos hlt, jtruthy] at h
                simp at h
                simp [← h]
      · simp only [apply_updated_answers, if_neg hlt] at h
        exact ih _ _ _ h

theorem fuzzyBest_gt_threshold (clean : String) :
    ∀ (cands : List String) (best : Option String) (bn bd : Nat),
      (∀ b, best = some b →
        (ratioRep clean b).1 * 5 > 3 * (ratioRep clean b).2 ∧ ratioRep clean b = (bn, bd)) →
      ∀ r, fuzzyBest clean cands best bn bd = some r →
        (ratioRep clean r).1 * 5 > 3 * (ratioRep clean r).2 := by
  intro cands
  induction cands with
  | nil =>
      intro best bn bd hinv r h
      simp only [fuzzyBest] at h
      exact (hinv r h).1
  | cons c rest ih =>
      intro best bn bd hinv r h
      simp only [fuzzyBest] at h
      by_cases hc : (ratioRep clean c).1 * bd > bn * (ratioRep clean c).2 ∧
          (ratioRep clean c).1 * 5 > 3 * (ratioRep clean c).2
      · rw [if_pos hc] at h
        refine ih (some c) (ratioRep clean c).1 (ratioRep clean c).2 ?_ r h
        intro b hb
        cases hb
        exact ⟨hc.2, rfl⟩
      · rw [if_neg hc] at h
        exact ih best bn bd hinv r h

/-- The canonical closed section-id set, in the key order of
`section_objects` (`main.py`). -/
def canonicalSections : List String :=
  ["skills", "experiences", "education", "projects", "summary", "contact",
   "certificates", "publications", "languages", "recommendations", "custom"]

/-- Claim C8: the Structured-Decision Extractor fails (with the
"empty response" `ValueError`, the spec's `MalformedDecision`) on empty
or whitespace-only input; on input with no brace-delimited
JSON-object-shaped span it does not fail but synthesizes
`{action: "answer", route: null, answer: <input trimmed>}`; in
particular `extract("just talking, no json")` yields exactly that
decision with the input as the answer. -/
theorem C8_decision_degrade :
    (∀ raw, pyStrip raw = "" →
      extract_and_validate_json raw = .error "Empty response from LLM") ∧
    (∀ raw, pyStrip raw ≠ "" → findJsonSpan raw = none →
      extract_and_validate_json raw =
        .ok (.jobj [("action", .jstr "answer"), ("route", .jnull),
                    ("answer", .jstr (pyStrip raw))])) ∧
    extract_and_validate_json "just talking, no json" =
      .ok (.jobj [("action", .jstr "answer"), ("route", .jnull),
                  ("answer", .jstr "just talking, no json")]) := by
  refine ⟨fun raw h => ?_, fun raw h hspan => ?_, by rfl⟩
  · simp [extract_and_validate_json, h]
  · simp [extract_and_validate_json, h, hspan]

/-- Witness for C8 at concrete inputs. -/
theorem C8_decision_degrade_witness :
    extract_and_validate_json " \t\n " = .error "Empty response from LLM" ∧
    extract_and_validate_json "hello there" =
      .ok (.jobj [("action", .jstr "answer"), ("route", .jnull),
                  ("answer", .jstr "hello there")]) := by
  constructor
  · exact C8_decision_degrade.1 " \t\n " (by rfl)
  · exact C8_decision_degrade.2.1 "hello there" (by decide) (by rfl)

/-- Claim C9: the Fuzzy Section Resolver applies, in order with first
hit winning: normalization with empty input or empty candidate list
giving null; exact membership; the static alias table; then the
similarity fallback, whose accepted candidate always has similarity
strictly above 0.6 and which keeps the first-seen maximum on ties.  In
particular `resolve("exp", ["experiences","skills"]) = "experiences"`,
`resolve("refs", ["recommendations"]) = "recommendations"`,
`resolve("experiance", canonical) = "experiences"`,
`resolve("xyz123", ["skills","education"]) = null`, and a two-way exact
tie keeps the first-seen candidate. -/
theorem C9_fuzzy_resolver :
    (∀ cands, normalize_section_name "" cands = none) ∧
    (∀ s, normalize_section_name s [] = none) ∧
    (∀ s cands, s ≠ "" → cands.contains (pyStrip (pyLower s)) = true →
      normalize_section_name s cands = some (pyStrip (pyLower s))) ∧
    (∀ s cands canonical, s ≠ "" →
      cands.contains (pyStrip (pyLower s)) = false →
      alistGet section_aliases (pyStrip (pyLower s)) = some canonical →
      cands.contains canonical = true →
      normalize_section_name s cands = some canonical) ∧
    (∀ s cands, s ≠ "" → cands ≠ [] →
      cands.contains (pyStrip (pyLower s)) = false →
      alistGet section_aliases (pyStrip (pyLower s)) = none →
      normalize_section_name s cands =
        fuzzyBest (pyStrip (pyLower s)) cands none 0 1) ∧
    (∀ clean cands r, fuzzyBest clean cands none 0 1 = some r →
      (ratioRep clean r).1 * 5 > 3 * (ratioRep clean r).2) ∧
    normalize_section_name "exp" ["experiences", "skills"] = some "experiences" ∧
    normalize_section_name "refs" ["recommendations"] = some "recommendations" ∧
    normalize_section_name "experiance" canonicalSections = some "experiences" ∧
    normalize_section_name "xyz123" ["skills", "education"] = none ∧
    normalize_section_name "abc" ["abcd", "abcx"] = some "abcd" := by
  refine ⟨fun cands => by simp [normalize_section_name],
    fun s => by simp [normalize_section_name],
    fun s cands hs hmem => ?_,
    fun s cands canonical hs hnot halias hcanon => ?_,
    fun s cands hs hc hnot halias => ?_,
    fun clean cands r h =>
      fuzzyBest_gt_threshold clean cands none 0 1 (by intro b hb; simp at hb) r h,
    by rfl, by rfl, by rfl, by rfl, by rfl⟩
  · have hmem' : pyStrip (pyLower s) ∈ cands := by simpa using hmem
    have hne : cands ≠ [] := by rintro rfl; simp at hmem'
    simp [normalize_section_name, hs, hne, hmem']
  · have hnot' : pyStrip (pyLower s) ∉ cands := by simpa using hnot
    have hcanon' : canonical ∈ cands := by simpa using hcanon
    have hne : cands ≠ [] := by rintro rfl; simp at hcanon'
    simp [normalize_section_name, hs, hne, hnot', halias, hcanon']
  · have hnot' : pyStrip (pyLower s) ∉ cands := by simpa using hnot
    simp [normalize_section_name, hs, hc, hnot', halias]

/-- Witness for C9 at concrete inputs. -/
theorem C9_fuzzy_resolver_witness :
    normalize_section_name "  SKILLS " ["skills", "education"] = some "skills" ∧
    normalize_section_name "edu" ["skills", "education"] = some "education" ∧
    normalize_section_name "experiance" canonicalSections =
      fuzzyBest "experiance" canonicalSections none 0 1 ∧
    (ratioRep "experiance" "experiences").1 * 5 > 3 * (ratioRep "experiance" "experiences").2 := by
  refine ⟨C9_fuzzy_resolver.2.2.1 "  SKILLS " ["skills", "education"] (by decide) (by rfl),
    C9_fuzzy_resolver.2.2.2.1 "edu" ["skills", "education"] "education" (by decide) (by rfl)
      (by rfl) (by rfl),
    C9_fuzzy_resolver.2.2.2.2.1 "experiance" canonicalSections (by decide) (by decide)
      (by rfl) (by rfl),
    C9_fuzzy_resolver.2.2.2.2.2.1 "experiance" canonicalSections "experiences" (by rfl)⟩

/-- Sample metadata for the `skills` section (from the initial state in
`main.py`). -/
def skillsMeta : SectionMeta :=
  { alignment_score := .jnum 85,
    missing_requirements := ["GCP", "Terraform"],
    recommended_questions :=
      ["Do you have infrastructure as code experience?",
       "Can you highlight any hands-on GCP projects?",
       "Have you used Terraform in production environments?"] }

/-- A small reachable conversation state: inside the `skills` section,
ledger reconciled, no staged proposal. -/
def sampleState : ResumeBuilderState :=
  { jd_summary := some "Senior Python Developer",
    resume_sections :=
      [("skills", "java, python, aws"), ("experiences", "Senior Developer at XYZ Corp")],
    section_objects :=
      [("skills", skillsMeta),
       ("experiences",
        { alignment_score := .jnum 78,
          missing_requirements := ["quantified impact"],
          recommended_questions := ["Can you add metrics to achievements?"] })],
    current_section := some "skills",
    context := [⟨"user", "hello"⟩],
    recommended_answers := [("skills", ["a1", "a2", "a3"])],
    routing_attempts := 0,
    next_action := none,
    proposed_section_content := none }

theorem safe_initialize_answers_shape (s : ResumeBuilderState) (n : String) (q : List String) :
    ∃ ra, safe_initialize_answers s n q = { s with recommended_answers := ra } := by
  unfold safe_initialize_answers
  split
  · exact ⟨_, rfl⟩
  · split
    · exact ⟨_, rfl⟩
    · exact ⟨s.recommended_answers, rfl⟩

/-- Claim C1 (amended): the Structured-Decision Extractor coerces any
action outside `{"answer", "route"}` to `"answer"` — for both invoking
handlers, not to a per-handler default — and returns the decision
object rather than failing; section chat then dispatches the coerced
`"answer"` to its stay/fallback branch, so an unknown action never
aborts the turn and ends it in place (`next_action = none`, section
unchanged), which is the stay behaviour. -/
theorem C1_unknown_action_coerced :
    (∀ raw span kvs a, pyStrip raw ≠ "" → findJsonSpan raw = some span →
      pyJsonLoads span = .ok (.jobj kvs) → alistGet kvs "action" = some a →
      a ≠ .jstr "answer" → a ≠ .jstr "route" →
      extract_and_validate_json raw =
        .ok (.jobj (alistSet kvs "action" (.jstr "answer")))) ∧
    (∀ state cur parsed, state.current_section = some cur →
      pyGet parsed "action" = some (.jstr "answer") →
      pyGet parsed "updated_answers" = none →
      (section_chat_node state (.ok parsed)).next_action = none ∧
      (section_chat_node state (.ok parsed)).current_section = some cur) := by
  constructor
  · intro raw span kvs a h hspan hload hget h1 h2
    simp only [extract_and_validate_json, if_neg h, hspan, hload, hget]
    cases a with
    | jstr s =>
        have hs1 : s ≠ "answer" := by rintro rfl; exact h1 rfl
        have hs2 : s ≠ "route" := by rintro rfl; exact h2 rfl
        simp [hs1, hs2]
    | jnull => rfl
    | jbool b => rfl
    | jnum n => rfl
    | jarr xs => rfl
    | jobj kvs2 => rfl
  · intro state cur parsed hcur hact hupd
    obtain ⟨ra, hra⟩ := safe_initialize_answers_shape state cur
      ((alistGet state.section_objects cur).getD {}).recommended_questions
    simp only [section_chat_node, hcur, hupd, hact, hra]
    simp [section_chat_dispatch, hact]

/-- Counterexample for claim C1 as stated: a section-chat style decision
with the unknown action `"trigger_updater_v2"` is coerced by the
extractor to `"answer"`, not to section chat's safe default `"stay"`. -/
theorem C1_coerced_to_answer_not_stay :
    ∃ kvs, extract_and_validate_json "\x7b\"action\": \"trigger_updater_v2\"\x7d" =
        .ok (.jobj kvs) ∧
      alistGet kvs "action" = some (.jstr "answer") ∧
      alistGet kvs "action" ≠ some (.jstr "stay") := by
  refine ⟨[("action", .jstr "answer")], by rfl, by rfl, by simp [alistGet, List.find?]⟩

/-- Witness for C1 at concrete inputs. -/
theorem C1_unknown_action_coerced_witness :
    extract_and_validate_json "\x7b\"action\": \"zap\"\x7d" =
      .ok (.jobj (alistSet [("action", JVal.jstr "zap")] "action" (.jstr "answer"))) ∧
    (section_chat_node sampleState (.ok (.jobj [("action", .jstr "answer")]))).next_action =
      none := by
  constructor
  · exact C1_unknown_action_coerced.1 "\x7b\"action\": \"zap\"\x7d" "\x7b\"action\": \"zap\"\x7d"
      [("action", JVal.jstr "zap")] (JVal.jstr "zap") (by decide) (by rfl) (by rfl) (by rfl)
      (by simp) (by simp)
  · exact (C1_unknown_action_coerced.2 sampleState "skills"
      (.jobj [("action", .jstr "answer")]) (by rfl) (by rfl) (by rfl)).1

/-- Claim C10: in offline mode the decision call returns the same fixed
decision — action `"answer"`, route `null`, fixed canned answer — for
every system prompt, payload and underlying transport outcome (any two
runs coincide); consequently an offline General Chat invocation that
consumes that decision never resolves a route: it always ends the turn
with `currentSection = null` and no pending action. -/
theorem C10_offline_fixed_decision :
    (∀ sp1 p1 o1 sp2 p2 o2,
      call_llm_json_decision true sp1 p1 o1 = call_llm_json_decision true sp2 p2 o2) ∧
    (∀ sp p o, call_llm_json_decision true sp p o =
      .jobj [("action", .jstr "answer"), ("route", .jnull),
             ("answer", .jstr "(Offline) I received your query and will help once an API key is configured.")]) ∧
    (∀ state sp p o,
      (general_chat_and_section_routing state
        (.ok (call_llm_json_decision true sp p o))).current_section = none ∧
      (general_chat_and_section_routing state
        (.ok (call_llm_json_decision true sp p o))).next_action = none) := by
  refine ⟨fun _ _ _ _ _ _ => rfl, fun _ _ _ => rfl, fun state sp p o => ?_⟩
  show (general_chat_and_section_routing state (.ok offlineDecision)).current_section = none ∧
    (general_chat_and_section_routing state (.ok offlineDecision)).next_action = none
  by_cases h : state.routing_attempts ≥ MAX_ROUTING_ATTEMPTS
  · simp [general_chat_and_section_routing, h]
  · cases hcs : state.current_section <;>
      simp [general_chat_and_section_routing, h, hcs, offlineDecision, pyGet, alistGet,
        List.find?, jtruthy]

/-- A general-chat decision representing a plain conversational answer
(no section resolution). -/
def gcAnswerDecision : Except GcFault JVal :=
  .ok (.jobj [("action", .jstr "answer"), ("answer", .jstr "hi")])

/-- One General Chat invocation whose oracle decision is the plain
answer `"hi"`. -/
def gcStep (s : ResumeBuilderState) : ResumeBuilderState :=
  general_chat_and_section_routing s gcAnswerDecision

/-- A general-chat starting state (no active section, counter 0). -/
def generalChatStart : ResumeBuilderState :=
  { sampleState with current_section := none }

/-- Claim C4 (amended): the attempts counter is reset to 0 by every
invocation that obtains a decision from the oracle call — even a plain
answer with no section resolution — so consecutive resolution-free turns
do not accumulate; only invocations whose awaited decision call raises
increment it.  When an invocation starts with the counter at
`MAX_ROUTING_ATTEMPTS` (3) or more, it performs exactly the hard reset:
`currentSection = null`, counter 0, `nextAction` cleared, the fixed
"let's start fresh" message appended, regardless of oracle output. -/
theorem C4_loop_cap :
    (∀ state dec, state.routing_attempts ≥ MAX_ROUTING_ATTEMPTS →
      general_chat_and_section_routing state dec =
        { state with
          current_section := none,
          routing_attempts := 0,
          next_action := none,
          context := state.context ++
            [make_message "assistant"
              "Let's start fresh - how can I help you with your resume?"] }) ∧
    (∀ state parsed, state.routing_attempts < MAX_ROUTING_ATTEMPTS →
      (general_chat_and_section_routing state (.ok parsed)).routing_attempts = 0) ∧
    (∀ state f, state.routing_attempts < MAX_ROUTING_ATTEMPTS →
      (general_chat_and_section_routing state (.error f)).routing_attempts =
        state.routing_attempts + 1) := by
  refine ⟨fun state dec h => ?_, fun state parsed h => ?_, fun state f h => ?_⟩
  · simp only [general_chat_and_section_routing, if_pos h]
  · have h' : ¬ state.routing_attempts ≥ MAX_ROUTING_ATTEMPTS := by omega
    simp only [general_chat_and_section_routing, if_neg h']
    cases hcs : state.current_section <;> simp [hcs] <;>
      split <;> (try split) <;> (try split) <;> rfl
  · have h' : ¬ state.routing_attempts ≥ MAX_ROUTING_ATTEMPTS := by omega
    cases f <;> cases hcs : state.current_section <;>
      simp [general_chat_and_section_routing, if_neg h', hcs]

/-- Counterexample for claim C4 as stated: starting from a fresh
general-chat state, three consecutive invocations each processing a
plain `"answer"` decision (no section resolution) leave the counter at
0, and the 4th such invocation appends the oracle's answer — not the
fixed "let's start fresh" reset message the claim mandates. -/
theorem C4_no_reset_on_fourth_turn :
    (gcStep (gcStep (gcStep generalChatStart))).routing_attempts = 0 ∧
    (gcStep (gcStep (gcStep (gcStep generalChatStart)))).context =
      (gcStep (gcStep (gcStep generalChatStart))).context ++
        [make_message "assistant" "hi"] ∧
    make_message "assistant" "hi" ≠
      make_message "assistant" "Let's start fresh - how can I help you with your resume?" := by
  refine ⟨by rfl, by rfl, by decide⟩

/-- Witness for C4 at concrete inputs. -/
theorem C4_loop_cap_witness :
    general_chat_and_section_routing { generalChatStart with routing_attempts := 3 }
        gcAnswerDecision =
      { generalChatStart with
        routing_attempts := 0,
        current_section := none,
        next_action := none,
        context := generalChatStart.context ++
          [make_message "assistant"
            "Let's start fresh - how can I help you with your resume?"] } ∧
    (general_chat_and_section_routing generalChatStart gcAnswerDecision).routing_attempts = 0 ∧
    (general_chat_and_section_routing generalChatStart
      (.error GcFault.otherError)).routing_attempts = generalChatStart.routing_attempts + 1 := by
  refine ⟨?_, C4_loop_cap.2.1 generalChatStart _ (by decide),
    C4_loop_cap.2.2 generalChatStart GcFault.otherError (by decide)⟩
  have h := C4_loop_cap.1 { generalChatStart with routing_attempts := 3 }
    gcAnswerDecision (by decide)
  simpa using h

theorem sia_fresh (state : ResumeBuilderState) (s : String) (qs : List String)
    (hget : alistGet state.recommended_answers s = none) :
    alistGet (safe_initialize_answers state s qs).recommended_answers s =
      some (List.replicate qs.length "") := by
  simp only [safe_initialize_answers, hget]
  exact alistGet_alistSet_same ..

theorem sia_rebuild (state : ResumeBuilderState) (s : String) (qs old : List String)
    (hget : alistGet state.recommended_answers s = some old)
    (hlen : old.length ≠ qs.length) :
    alistGet (safe_initialize_answers state s qs).recommended_answers s =
      some ((List.range qs.length).map
        (fun i => if i < old.length then old.getD i "" else "")) := by
  simp only [safe_initialize_answers, hget, if_pos hlen]
  exact alistGet_alistSet_same ..

theorem sia_noop (state : ResumeBuilderState) (s : String) (qs old : List String)
    (hget : alistGet state.recommended_answers s = some old)
    (hlen : old.length = qs.length) :
    safe_initialize_answers state s qs = state := by
  simp [safe_initialize_answers, hget, hlen]

theorem sia_touched_length (state : ResumeBuilderState) (s : String) (qs : List String) :
    ∃ l, alistGet (safe_initialize_answers state s qs).recommended_answers s = some l ∧
      l.length = qs.length := by
  cases hget : alistGet state.recommended_answers s with
  | none => exact ⟨_, sia_fresh state s qs hget, by simp⟩
  | some old =>
      by_cases hlen : old.length = qs.length
      · rw [sia_noop state s qs old hget hlen]
        exact ⟨old, hget, hlen⟩
      · exact ⟨_, sia_rebuild state s qs old hget hlen, by simp⟩

theorem section_chat_dispatch_frame (state2 : ResumeBuilderState) (cur : String)
    (avail : List String) (parsed : JVal) :
    (section_chat_dispatch state2 cur avail parsed).recommended_answers =
        state2.recommended_answers ∧
    (section_chat_dispatch state2 cur avail parsed).resume_sections =
        state2.resume_sections ∧
    (section_chat_dispatch state2 cur avail parsed).section_objects =
        state2.section_objects ∧
    (section_chat_dispatch state2 cur avail parsed).proposed_section_content =
        state2.proposed_section_content := by
  simp only [section_chat_dispatch, sectionChatExcept]
  repeat' split
  all_goals exact ⟨rfl, rfl, rfl, rfl⟩

theorem section_chat_node_proposed (state : ResumeBuilderState) (dec : Except Unit JVal) :
    (section_chat_node state dec).proposed_section_content =
      state.proposed_section_content := by
  cases hcs : state.current_section with
  | none => simp [section_chat_node, hcs]
  | some cur =>
      obtain ⟨ra, hra⟩ := safe_initialize_answers_shape state cur
        ((alistGet state.section_objects cur).getD {}).recommended_questions
      cases dec with
      | error e => simp [section_chat_node, hcs, hra, sectionChatExcept]
      | ok parsed =>
          simp only [section_chat_node, hcs, hra]
          cases hupd : pyGet parsed "updated_answers" with
          | none =>
              simp only [hupd]
              exact (section_chat_dispatch_frame ..).2.2.2
          | some v =>
              cases v with
              | jarr updates =>
                  simp only [hupd]
                  cases happ : apply_updated_answers
                      ((alistGet ({ state with recommended_answers := ra} :
                        ResumeBuilderState).recommended_answers cur).getD []) updates 0 with
                  | ok newAns =>
                      simp only [happ]
                      exact (section_chat_dispatch_frame ..).2.2.2
                  | error partialAns => simp [happ, sectionChatExcept]
              | jnull => simp only [hupd]; exact (section_chat_dispatch_frame ..).2.2.2
              | jbool b => simp only [hupd]; exact (section_chat_dispatch_frame ..).2.2.2
              | jnum n => simp only [hupd]; exact (section_chat_dispatch_frame ..).2.2.2
              | jstr s => simp only [hupd]; exact (section_chat_dispatch_frame ..).2.2.2
              | jobj kvs => simp only [hupd]; exact (section_chat_dispatch_frame ..).2.2.2

theorem general_chat_proposed (state : ResumeBuilderState) (dec : Except GcFault JVal) :
    (general_chat_and_section_routing state dec).proposed_section_content =
      state.proposed_section_content := by
  by_cases h : state.routing_attempts ≥ MAX_ROUTING_ATTEMPTS
  · simp [general_chat_and_section_routing, h]
  · simp only [general_chat_and_section_routing, if_neg h]
    cases hcs : state.current_section with
    | none =>
        cases dec with
        | error f => cases f <;> simp [hcs]
        | ok parsed =>
            simp only [hcs]
            repeat' split
            all_goals rfl
    | some cur =>
        cases dec with
        | error f => cases f <;> simp [hcs]
        | ok parsed =>
            simp only [hcs]
            repeat' split
            all_goals rfl

theorem apply_resume_sections (state : ResumeBuilderState) (s c : String)
    (ao : AnalysisOutcome) :
    (apply_section_changes_internal state s c ao).resume_sections =
      alistSet state.resume_sections s c := by
  cases ao <;> rfl

theorem apply_fault_frame (state : ResumeBuilderState) (s c : String) :
    apply_section_changes_internal state s c AnalysisOutcome.fault =
      { state with
        resume_sections := alistSet state.resume_sections s c,
        context := state.context ++
          [make_message "assistant"
            ("✅ Changes saved to " ++ s ++
              ", but analysis failed. Continue working on this section.")] } := rfl

/-- The question list a non-faulting apply writes into the section's
metadata (and sizes the reset ledger with). -/
def appliedQuestions (ao : AnalysisOutcome) (section_name : String) : List String :=
  jvalToStrList ((pyGet (analysisResultOf ao section_name) "recommended_questions").getD (.jarr []))

theorem apply_nonfault_section (state : ResumeBuilderState) (s c : String)
    (ao : AnalysisOutcome) (hao : ao ≠ AnalysisOutcome.fault) :
    alistGet (apply_section_changes_internal state s c ao).section_objects s =
      some { alignment_score := (pyGet (analysisResultOf ao s) "alignment_score").getD .jnull,
             missing_requirements :=
               jvalToStrList ((pyGet (analysisResultOf ao s) "missing_requirements").getD (.jarr [])),
             recommended_questions := appliedQuestions ao s } ∧
    alistGet (apply_section_changes_internal state s c ao).recommended_answers s =
      some (List.replicate (appliedQuestions ao s).length "") := by
  cases ao with
  | fault => exact absurd rfl hao
  | offline =>
      constructor
      · simp only [apply_section_changes_internal, appliedQuestions]
        exact alistGet_alistSet_same ..
      · simp only [apply_section_changes_internal, appliedQuestions]
        by_cases hq : jvalToStrList ((pyGet (analysisResultOf AnalysisOutcome.offline s)
            "recommended_questions").getD (.jarr [])) = []
        · rw [if_neg (by simp [hq])]
          rw [alistGet_alistSet_same]
          simp [hq]
        · rw [if_pos (by simpa using hq)]
          rw [alistGet_alistSet_same]
  | onlineRaw raw =>
      constructor
      · simp only [apply_section_changes_internal, appliedQuestions]
        exact alistGet_alistSet_same ..
      · simp only [apply_section_changes_internal, appliedQuestions]
        by_cases hq : jvalToStrList ((pyGet (analysisResultOf (AnalysisOutcome.onlineRaw raw) s)
            "recommended_questions").getD (.jarr [])) = []
        · rw [if_neg (by simp [hq])]
          rw [alistGet_alistSet_same]
          simp [hq]
        · rw [if_pos (by simpa using hq)]
          rw [alistGet_alistSet_same]

theorem section_applier_run (state : ResumeBuilderState) (cur : String)
    (h : state.current_section = some cur) (hc : contentToApply state cur ≠ "")
    (ao : AnalysisOutcome) :
    section_applier_node state ao =
      { apply_section_changes_internal state cur (contentToApply state cur) ao with
        proposed_section_content := none,
        next_action := some "section_chat" } := by
  simp only [section_applier_node, h]
  rw [if_neg hc]

/-- A concrete re-analysis outcome whose oracle reply carries a
two-question set. -/
def reanalysisTwoQuestions : AnalysisOutcome :=
  .onlineRaw "\x7b\"alignment_score\": 90, \"recommended_questions\": [\"n1\", \"n2\"]\x7d"

/-- Claim C2 (amended): re-analysis after an apply resets the section's
answer ledger to empty strings sized to the new question list — the
previously stored answers are all dropped, not preserved positionally.
The copy-at-matching-indices / pad-with-empty / truncate behaviour
belongs to the ledger reconcile (`safe_initialize_answers`), which
rebuilds on a length mismatch exactly that way. -/
theorem C2_requestion_preservation :
    (∀ state s qs old, alistGet state.recommended_answers s = some old →
      old.length ≠ qs.length →
      ∃ l, alistGet (safe_initialize_answers state s qs).recommended_answers s = some l ∧
        l.length = qs.length ∧
        (∀ i, i < old.length → i < qs.length → l.getD i "" = old.getD i "") ∧
        (∀ i, old.length ≤ i → i < qs.length → l.getD i "" = "")) ∧
    (∀ state s c ao, ao ≠ AnalysisOutcome.fault →
      alistGet (apply_section_changes_internal state s c ao).recommended_answers s =
        some (List.replicate (appliedQuestions ao s).length "")) := by
  constructor
  · intro state s qs old hget hlen
    refine ⟨_, sia_rebuild state s qs old hget hlen, by simp, ?_, ?_⟩
    · intro i h1 h2
      simp [List.getD_eq_getElem?_getD, List.getElem?_map, List.getElem?_range, h1, h2]
    · intro i h1 h2
      simp [List.getD_eq_getElem?_getD, List.getElem?_map, List.getElem?_range, h2]
      omega
  · intro state s c ao hao
    exact (apply_nonfault_section state s c ao hao).2

/-- Counterexample for claim C2 as stated: with three stored answers and
a re-analysis (after an apply) that produces two questions, the ledger
becomes `["", ""]` — the first two answers are NOT preserved. -/
theorem C2_apply_discards_answers :
    alistGet sampleState.recommended_answers "skills" = some ["a1", "a2", "a3"] ∧
    (appliedQuestions reanalysisTwoQuestions "skills").length = 2 ∧
    alistGet (apply_section_changes_internal sampleState "skills" "new content"
        reanalysisTwoQuestions).recommended_answers "skills" = some ["", ""] ∧
    (["", ""] : List String) ≠ ["a1", "a2"] := by
  refine ⟨by rfl, by rfl, by rfl, by decide⟩

/-- Witness for C2 at concrete inputs. -/
theorem C2_requestion_preservation_witness :
    (∃ l, alistGet (safe_initialize_answers sampleState "skills"
        ["only question"]).recommended_answers "skills" = some l ∧
      l.length = (["only question"] : List String).length ∧
      (∀ i, i < (["a1", "a2", "a3"] : List String).length →
        i < (["only question"] : List String).length →
        l.getD i "" = (["a1", "a2", "a3"] : List String).getD i "") ∧
      (∀ i, (["a1", "a2", "a3"] : List String).length ≤ i →
        i < (["only question"] : List String).length → l.getD i "" = "")) ∧
    alistGet (apply_section_changes_internal sampleState "skills" "new content"
        reanalysisTwoQuestions).recommended_answers "skills" =
      some (List.replicate (appliedQuestions reanalysisTwoQuestions "skills").length "") := by
  exact ⟨C2_requestion_preservation.1 sampleState "skills" ["only question"]
      ["a1", "a2", "a3"] (by rfl) (by decide),
    C2_requestion_preservation.2 sampleState "skills" "new content"
      reanalysisTwoQuestions (by decide)⟩

/-- Claim C5: the ledger-length invariant.  The reconcile establishes
`len(answers) = len(questions)` for the reconciled section (creating an
all-empty list when absent — unanswered slots are empty strings, not
absent); the `updated_answers` application never changes any list's
length (on success or on the partially-applied fault path); a
non-faulting apply rewrites the section's metadata and ledger together
with equal lengths and all-empty answers; a faulting apply leaves both
maps untouched; and a full section-chat turn leaves the active section's
ledger sized exactly to its metadata question list. -/
theorem C5_ledger_invariant :
    (∀ state s meta, alistGet state.section_objects s = some meta →
      ∃ l, alistGet (safe_initialize_answers state s
          meta.recommended_questions).recommended_answers s = some l ∧
        l.length = meta.recommended_questions.length) ∧
    (∀ state s qs, alistGet state.recommended_answers s = none →
      alistGet (safe_initialize_answers state s qs).recommended_answers s =
        some (List.replicate qs.length "")) ∧
    (∀ answers updates i l, apply_updated_answers answers updates i = .ok l →
      l.length = answers.length) ∧
    (∀ answers updates i l, apply_updated_answers answers updates i = .error l →
      l.length = answers.length) ∧
    (∀ state s c ao, ao ≠ AnalysisOutcome.fault →
      ∃ meta l,
        alistGet (apply_section_changes_internal state s c ao).section_objects s = some meta ∧
        alistGet (apply_section_changes_internal state s c ao).recommended_answers s = some l ∧
        l.length = meta.recommended_questions.length ∧ ∀ a ∈ l, a = "") ∧
    (∀ state s c,
      (apply_section_changes_internal state s c AnalysisOutcome.fault).section_objects =
        state.section_objects ∧
      (apply_section_changes_internal state s c AnalysisOutcome.fault).recommended_answers =
        state.recommended_answers) ∧
    (∀ state cur dec, state.current_section = some cur →
      ∃ l, alistGet (section_chat_node state dec).recommended_answers cur = some l ∧
        l.length =
          ((alistGet state.section_objects cur).getD {}).recommended_questions.length) := by
  refine ⟨fun state s meta _ => sia_touched_length state s meta.recommended_questions,
    fun state s qs h => sia_fresh state s qs h,
    fun answers updates i l h => apply_updated_answers_ok_length updates answers l i h,
    fun answers updates i l h => apply_updated_answers_error_length updates answers l i h,
    fun state s c ao hao => ?_, fun state s c => by rw [apply_fault_frame]; exact ⟨rfl, rfl⟩,
    fun state cur dec hcur => ?_⟩
  · obtain ⟨hmeta, hans⟩ := apply_nonfault_section state s c ao hao
    refine ⟨_, _, hmeta, hans, by simp, ?_⟩
    intro a ha
    exact List.eq_of_mem_replicate ha
  · obtain ⟨l1, hl1, hlen1⟩ := sia_touched_length state cur
      ((alistGet state.section_objects cur).getD {}).recommended_questions
    cases dec with
    | error e =>
        refine ⟨l1, ?_, hlen1⟩
        simp only [section_chat_node, hcur, sectionChatExcept]
        exact hl1
    | ok parsed =>
        simp only [section_chat_node, hcur]
        cases hupd : pyGet parsed "updated_answers" with
        | none =>
            simp only [hupd]
            refine ⟨l1, ?_, hlen1⟩
            rw [(section_chat_dispatch_frame ..).1]
            exact hl1
        | some v =>
            cases v with
            | jarr updates =>
                simp only [hupd, hl1, Option.getD_some]
                cases happ : apply_updated_answers l1 updates 0 with
                | ok newAns =>
                    simp only [happ]
                    refine ⟨newAns, ?_, ?_⟩
                    · rw [(section_chat_dispatch_frame ..).1]
                      exact alistGet_alistSet_same ..
                    · rw [apply_updated_answers_ok_length updates l1 newAns 0 happ]
                      exact hlen1
                | error partialAns =>
                    simp only [happ, sectionChatExcept]
                    refine ⟨partialAns, alistGet_alistSet_same .., ?_⟩
                    rw [apply_updated_answers_error_length updates l1 partialAns 0 happ]
                    exact hlen1
            | jnull =>
                simp only [hupd]
                refine ⟨l1, ?_, hlen1⟩
                rw [(section_chat_dispatch_frame ..).1]
                exact hl1
            | jbool b =>
                simp only [hupd]
                refine ⟨l1, ?_, hlen1⟩
                rw [(section_chat_dispatch_frame ..).1]
                exact hl1
            | jnum n =>
                simp only [hupd]
                refine ⟨l1, ?_, hlen1⟩
                rw [(section_chat_dispatch_frame ..).1]
                exact hl1
            | jstr str =>
                simp only [hupd]
                refine ⟨l1, ?_, hlen1⟩
                rw [(section_chat_dispatch_frame ..).1]
                exact hl1
            | jobj kvs =>
                simp only [hupd]
                refine ⟨l1, ?_, hlen1⟩
                rw [(section_chat_dispatch_frame ..).1]
                exact hl1

/-- Witness for C5 at concrete inputs. -/
theorem C5_ledger_invariant_witness :
    (∃ l, alistGet (safe_initialize_answers sampleState "skills"
        skillsMeta.recommended_questions).recommended_answers "skills" = some l ∧
      l.length = skillsMeta.recommended_questions.length) ∧
    (∃ meta l,
      alistGet (apply_section_changes_internal sampleState "skills" "new content"
          AnalysisOutcome.offline).section_objects "skills" = some meta ∧
      alistGet (apply_section_changes_internal sampleState "skills" "new content"
          AnalysisOutcome.offline).recommended_answers "skills" = some l ∧
      l.length = meta.recommended_questions.length ∧ ∀ a ∈ l, a = "") ∧
    (∃ l, alistGet (section_chat_node sampleState
        (.ok (.jobj [("action", .jstr "stay")]))).recommended_answers "skills" = some l ∧
      l.length =
        ((alistGet sampleState.section_objects "skills").getD {}).recommended_questions.length) := by
  exact ⟨C5_ledger_invariant.1 sampleState "skills" skillsMeta (by rfl),
    C5_ledger_invariant.2.2.2.2.1 sampleState "skills" "new content"
      AnalysisOutcome.offline (by decide),
    C5_ledger_invariant.2.2.2.2.2.2 sampleState "skills"
      (.ok (.jobj [("action", .jstr "stay")])) (by rfl)⟩

/-- Claim C6: with an active section and non-empty content to apply,
the content is committed into `resumeSections[currentSection]` for every
analysis outcome — including a faulting re-analysis, which never rolls
the commit back; on the fault path the section's prior metadata and
ledger are untouched and the "saved but analysis failed" message is
appended, returning to section chat. -/
theorem C6_commit_survives_analysis_failure :
    ∀ state cur, state.current_section = some cur → contentToApply state cur ≠ "" →
      (∀ ao, alistGet (section_applier_node state ao).resume_sections cur =
        some (contentToApply state cur)) ∧
      (section_applier_node state AnalysisOutcome.fault).section_objects =
        state.section_objects ∧
      (section_applier_node state AnalysisOutcome.fault).recommended_answers =
        state.recommended_answers ∧
      (section_applier_node state AnalysisOutcome.fault).context =
        state.context ++
          [make_message "assistant"
            ("✅ Changes saved to " ++ cur ++
              ", but analysis failed. Continue working on this section.")] ∧
      (section_applier_node state AnalysisOutcome.fault).next_action = some "section_chat" := by
  intro state cur hcur hc
  refine ⟨fun ao => ?_, ?_, ?_, ?_, ?_⟩
  · rw [section_applier_run state cur hcur hc ao]
    show alistGet (apply_section_changes_internal state cur
      (contentToApply state cur) ao).resume_sections cur = _
    rw [apply_resume_sections]
    exact alistGet_alistSet_same ..
  all_goals rw [section_applier_run state cur hcur hc .fault, apply_fault_frame]

/-- Witness for C6 at concrete inputs. -/
theorem C6_commit_survives_analysis_failure_witness :
    alistGet (section_applier_node
        { sampleState with proposed_section_content := some "STAGED" }
        AnalysisOutcome.fault).resume_sections "skills" =
      some (contentToApply
        { sampleState with proposed_section_content := some "STAGED" } "skills") ∧
    (section_applier_node { sampleState with proposed_section_content := some "STAGED" }
        AnalysisOutcome.fault).section_objects = sampleState.section_objects := by
  have h := C6_commit_survives_analysis_failure
    { sampleState with proposed_section_content := some "STAGED" } "skills"
    (by rfl) (by decide)
  exact ⟨h.1 AnalysisOutcome.fault, h.2.1⟩

/-- A state inside the `skills` section with a staged (proposed but
unapplied) rewrite. -/
def stagedState : ResumeBuilderState :=
  { sampleState with proposed_section_content := some "STAGED" }

/-- Claim C3 (amended): applying (with an active section and non-empty
content) always clears `proposedSectionContent`, and section chat and
general chat never stage content themselves; but the transitions that
null `currentSection` — section chat's `exit_section` dispatch and every
general-chat path including the hard reset — leave
`proposedSectionContent` exactly as it was, so staged content survives
the section becoming null and the claimed invariant does not hold. -/
theorem C3_staged_content_lifecycle :
    (∀ state cur, state.current_section = some cur → contentToApply state cur ≠ "" →
      ∀ ao, (section_applier_node state ao).proposed_section_content = none) ∧
    (∀ state dec, (section_chat_node state dec).proposed_section_content =
      state.proposed_section_content) ∧
    (∀ state dec, (general_chat_and_section_routing state dec).proposed_section_content =
      state.proposed_section_content) ∧
    (∀ state2 cur avail parsed, pyGet parsed "action" = some (.jstr "exit_section") →
      (section_chat_dispatch state2 cur avail parsed).current_section = none ∧
      (section_chat_dispatch state2 cur avail parsed).proposed_section_content =
        state2.proposed_section_content) := by
  refine ⟨fun state cur hcur hc ao => ?_, section_chat_node_proposed,
    general_chat_proposed, fun state2 cur avail parsed hact => ?_⟩
  · rw [section_applier_run state cur hcur hc ao]
  · simp [section_chat_dispatch, hact]

/-- Counterexample for claim C3 as stated: from a state with staged
proposed content, the `exit_section` decision sets `currentSection` to
null yet leaves the staged content behind, so the invariant
"`proposedSectionContent` non-null only while `currentSection` non-null"
is violated at end of turn. -/
theorem C3_exit_leaves_staged_content :
    stagedState.proposed_section_content = some "STAGED" ∧
    (section_chat_node stagedState
      (.ok (.jobj [("action", .jstr "exit_section")]))).current_section = none ∧
    (section_chat_node stagedState
      (.ok (.jobj [("action", .jstr "exit_section")]))).proposed_section_content =
      some "STAGED" ∧
    some "STAGED" ≠ (none : Option String) := by
  refine ⟨by rfl, by rfl, by rfl, by decide⟩

/-- Witness for C3 at concrete inputs. -/
theorem C3_staged_content_lifecycle_witness :
    (section_applier_node stagedState AnalysisOutcome.offline).proposed_section_content =
      none ∧
    (section_chat_dispatch stagedState "skills" ["skills"]
      (.jobj [("action", .jstr "exit_section")])).current_section = none := by
  exact ⟨C3_staged_content_lifecycle.1 stagedState "skills" (by rfl) (by decide)
      AnalysisOutcome.offline,
    (C3_staged_content_lifecycle.2.2.2 stagedState "skills" ["skills"]
      (.jobj [("action", .jstr "exit_section")]) (by rfl)).1⟩

/-- Claim C7 (amended): a `switch_section` decision resolving to the
currently active section leaves `resumeSections`, `sectionObjects`,
`currentSection` and — provided the ledger is already reconciled and the
decision carries no `updated_answers` — the whole answer ledger
unchanged; the only effects are the appended acknowledgement and
`nextAction = section_chat`.  (Without those provisos the ledger can
change: the reconcile and the `updated_answers` application run before
the switch is dispatched — see the counterexample.) -/
theorem C7_same_section_switch :
    ∀ state cur meta parsed target old,
      state.current_section = some cur →
      alistGet state.section_objects cur = some meta →
      alistGet state.recommended_answers cur = some old →
      old.length = meta.recommended_questions.length →
      pyGet parsed "updated_answers" = none →
      pyGet parsed "action" = some (.jstr "switch_section") →
      pyGet parsed "target_section" = some (.jstr target) →
      target ≠ "" →
      normalize_section_name target (state.section_objects.map (·.1)) = some cur →
      section_chat_node state (.ok parsed) =
        { state with
          next_action := some "section_chat",
          context := state.context ++
            [make_message "assistant"
              (if jtruthy ((pyGet parsed "answer").getD (.jstr "")) then
                 jvalContent ((pyGet parsed "answer").getD (.jstr ""))
               else "You're already in the " ++ cur ++
                 " section. How can I help you improve it?")] } := by
  intro state cur meta parsed target old hcur hmeta hold hlen hupd hact htgt htne hnorm
  have hsia := sia_noop state cur meta.recommended_questions old hold hlen
  simp only [section_chat_node, hcur, hmeta, Option.getD_some, hsia, hupd]
  simp only [section_chat_dispatch, hact, htgt, Option.getD_some]
  simp [jtruthy, htne, hnorm, hcur]

/-- A same-section switch decision that also carries `updated_answers`. -/
def c7dec : Except Unit JVal :=
  .ok (.jobj [("action", .jstr "switch_section"), ("target_section", .jstr "skills"),
              ("updated_answers", .jarr [.jstr "terraform yes"])])

/-- Counterexample for claim C7 as stated: a `switch_section` decision
resolving to the active section (`skills` → `skills`) whose payload also
carries `updated_answers` mutates the answer ledger before the switch is
dispatched, so state beyond the message history changes. -/
theorem C7_same_section_switch_mutates_ledger :
    sampleState.current_section = some "skills" ∧
    (section_chat_node sampleState c7dec).current_section = some "skills" ∧
    sampleState.recommended_answers = [("skills", ["a1", "a2", "a3"])] ∧
    (section_chat_node sampleState c7dec).recommended_answers =
      [("skills", ["terraform yes", "a2", "a3"])] ∧
    [("skills", ["terraform yes", "a2", "a3"])] ≠ sampleState.recommended_answers := by
  refine ⟨by rfl, by rfl, by rfl, by rfl, by decide⟩

/-- A same-section switch decision with no answer updates. -/
def c7stayDec : JVal :=
  .jobj [("action", .jstr "switch_section"), ("target_section", .jstr "skills")]

/-- Witness for C7 at concrete inputs. -/
theorem C7_same_section_switch_witness :
    section_chat_node sampleState (.ok c7stayDec) =
      { sampleState with
        next_action := some "section_chat",
        context := sampleState.context ++
          [make_message "assistant"
            "You're already in the skills section. How can I help you improve it?"] } := by
  have h := C7_same_section_switch sampleState "skills" skillsMeta c7stayDec "skills"
    ["a1", "a2", "a3"] (by rfl) (by rfl) (by rfl) (by rfl) (by rfl) (by rfl) (by rfl)
    (by decide) (by rfl)
  exact h
